import Mathlib

/-!
Shallow embedding of `src/runtime/pkg/device/drivers/vfio.go`: the VFIO
device entity (attach/detach state machine), device-group BDF/sysfs
resolution, the host driver rebind protocol, the PCIe slot registry and
the save/load persistence of the device-group record set.

Collaborators that live outside this file's source (the `config` package
constants and types, `GenericDevice`, `utils.WriteToFile`,
`GetAllVFIODevicesFromIOMMUGroup`, `GetVFIODeviceType`, `GetSysfsDev`)
are modelled from the specification and marked as such, or taken as
parameters of the embedded functions.
-/

namespace Vfio

/-! ### Go string / path primitives -/

/-- Splits a character list at every occurrence of `sep`; `acc` holds the
reversed characters of the current piece. -/
def splitCharsAux (sep : Char) : List Char → List Char → List (List Char)
  | [], acc => [acc.reverse]
  | c :: cs, acc =>
    if c = sep then acc.reverse :: splitCharsAux sep cs []
    else splitCharsAux sep cs (c :: acc)

/-- Go `strings.SplitN(s, sep, -1)` (i.e. `strings.Split`) for the
single-character separators the driver uses: split `s` at every
occurrence of `sep`; `Split("", sep) = [""]`. -/
def goSplit (s : String) (sep : Char) : List String :=
  (splitCharsAux sep s.data []).map String.mk

/-- Splits a character list at the first occurrence of `sep`, or `none`
when `sep` does not occur. -/
def breakAtChar (sep : Char) : List Char → Option (List Char × List Char)
  | [] => none
  | c :: cs =>
    if c = sep then some ([], cs)
    else
      match breakAtChar sep cs with
      | none => none
      | some (a, b) => some (c :: a, b)

/-- Go `strings.SplitN(s, sep, 2)`: at most two pieces; the second piece
keeps any further separators unsplit; `[s]` when `sep` does not occur. -/
def splitN2 (s : String) (sep : Char) : List String :=
  match breakAtChar sep s.data with
  | none => [s]
  | some (a, b) => [String.mk a, String.mk b]

/-- Go `filepath.Join(a, b)` on already-clean arguments: empty components
are dropped, otherwise the two are joined with a single slash. -/
def filepathJoin (a b : String) : String :=
  if a = "" then b else if b = "" then a else a ++ "/" ++ b

/-- Go `filepath.Base`: the last element of the path, after stripping
trailing slashes; `"."` for an empty path, `"/"` for an all-slash path. -/
def filepathBase (p : String) : String :=
  if p = "" then "."
  else
    let stripped := String.mk ((p.data.reverse.dropWhile (· = '/')).reverse)
    let name := String.mk ((stripped.data.reverse.takeWhile (· ≠ '/')).reverse)
    if name = "" then "/" else name

/-! ### Data model (`config` package, modelled from the spec) -/

/-- Modelled from the spec: `config.VFIODeviceType` is a variant over
PCI-normal, PCI-mediated and AP-mediated, with an error value as the
zero value of the type (the `config` package is not under the drivers
source). -/
inductive VFIODeviceType where
  | VFIODeviceErrorType
  | VFIOPCIDeviceNormalType
  | VFIOPCIDeviceMediatedType
  | VFIOAPDeviceMediatedType
deriving DecidableEq, Repr

/-- Modelled from the spec: `config.DeviceInfo` — host path to the IOMMU
group directory, a cold-plug boolean, a stable ID. -/
structure DeviceInfo where
  ID : String
  HostPath : String
  ColdPlug : Bool
deriving DecidableEq, Repr

/-- Modelled from the spec: `config.VFIODev`, one physical/mediated
function within a group. The Go field `Type` is spelled `Typ` here
(`Type` is reserved in Lean). -/
structure VFIODev where
  ID : String
  Typ : VFIODeviceType
  BDF : String
  SysfsDev : String
  IsPCIe : Bool
  Port : String
  Bus : String
deriving DecidableEq, Repr

/-- Modelled from the spec: the generic device base — ID, `DeviceInfo`,
attach reference count (`GenericDevice` is defined outside the VFIO
driver source). -/
structure GenericDevice where
  ID : String
  DevInfo : DeviceInfo
  AttachCount : Nat
deriving DecidableEq, Repr

/-- `VFIODevice`: the attachable unit — the generic base plus the ordered
group-member sequence `VfioDevs`. -/
structure VFIODevice where
  Generic : GenericDevice
  VfioDevs : List VFIODev
deriving DecidableEq, Repr

/-! ### Attach-count gate (modelled from the spec) -/

/-- Modelled from the spec: `GenericDevice.bumpAttachCount` (not under
src/). On increment the count rises by one and the real attach is skipped
when the resulting count exceeds one; on decrement the count falls by one
and the real detach is skipped while it stays above zero; decrementing a
zero count fails without mutating state. Returns Go-style
`(skip, newCount)` or an error. -/
def bumpAttachCount (attach : Bool) (count : Nat) : Except String (Bool × Nat) :=
  if attach then
    .ok (decide (count + 1 > 1), count + 1)
  else
    if count = 0 then .error "device not attached"
    else .ok (decide (count - 1 > 0), count - 1)

/-- The deferred compensation in Attach/Detach calls `bumpAttachCount`
with the inverse direction and discards its `skip`/error results; this is
that call's effect on the stored count. -/
def compensateBump (attach : Bool) (count : Nat) : Nat :=
  match bumpAttachCount attach count with
  | .ok (_, c) => c
  | .error _ => count

/-! ### BDF / sysfs path resolution (vfio.go lines 200–250) -/

/-- Modelled from the spec: `config.SysBusPciDevicesPath`, the canonical
PCI devices path (the `config` package is not under the drivers source). -/
def SysBusPciDevicesPath : String := "/sys/bus/pci/devices"

/-- `getMediatedBDF` (vfio.go): the second-to-last `/`-delimited token of
the resolved mediated sysfs path, or `""` when there are fewer than 4
tokens. -/
def getMediatedBDF (deviceSysfsDev : String) : String :=
  let tokens := goSplit deviceSysfsDev '/'
  if tokens.length < 4 then ""
  else tokens.getD (tokens.length - 2) ""

/-- `GetBDF` (vfio.go): split on the first `:`; when no `:` occurs return
`""`, otherwise return everything after the first `:`. -/
def GetBDF (deviceSysStr : String) : String :=
  let tokens := splitN2 deviceSysStr ':'
  if tokens.length = 1 then ""
  else tokens.getD 1 ""

/-- The result quadruple of `GetVFIODetails`, mirroring Go's named return
values `(deviceBDF, deviceSysfsDev, vfioDeviceType, err)`. -/
structure VFIODetails where
  deviceBDF : String
  deviceSysfsDev : String
  vfioDeviceType : VFIODeviceType
  err : Option String
deriving DecidableEq, Repr

/-- `GetVFIODetails` (vfio.go). The external classifier
`GetVFIODeviceType` and the symlink resolver `GetSysfsDev` are passed as
parameters returning Go-style `(value, err)` pairs. For PCI-normal
members the BDF is the raw file name and the sysfs path is the canonical
PCI devices path joined with it; for PCI-mediated members the BDF is
`GetBDF (getMediatedBDF resolvedPath)`; for AP-mediated members only the
sysfs path is set; any other classification is an error naming the file. -/
def GetVFIODetails (getType : String → VFIODeviceType × Option String)
    (getSysfsDev : String → String × Option String)
    (deviceFileName iommuDevicesPath : String) : VFIODetails :=
  let sysfsDevStr := filepathJoin iommuDevicesPath deviceFileName
  let (vfioDeviceType, err0) := getType sysfsDevStr
  match err0 with
  | some e => ⟨"", "", vfioDeviceType, some e⟩
  | none =>
    match vfioDeviceType with
    | .VFIOPCIDeviceNormalType =>
      ⟨deviceFileName, filepathJoin SysBusPciDevicesPath deviceFileName,
        vfioDeviceType, none⟩
    | .VFIOPCIDeviceMediatedType =>
      let (deviceSysfsDev, err) :=
        getSysfsDev (filepathJoin iommuDevicesPath deviceFileName)
      ⟨GetBDF (getMediatedBDF deviceSysfsDev), deviceSysfsDev,
        vfioDeviceType, err⟩
    | .VFIOAPDeviceMediatedType =>
      let (deviceSysfsDev, err) :=
        getSysfsDev (filepathJoin iommuDevicesPath deviceFileName)
      ⟨"", deviceSysfsDev, vfioDeviceType, err⟩
    | .VFIODeviceErrorType =>
      ⟨"", "", vfioDeviceType,
        some ("Incorrect tokens found while parsing vfio details: " ++ deviceFileName)⟩

/-! ### PCIe slot registry and Attach / Detach (vfio.go lines 53–140) -/

/-- Modelled from the spec: the process-wide `config.PCIeDevices`
registry, a map from port identifier to the set of occupied BDFs for that
port (represented as a duplicate-free list; its length is the set's
cardinality). -/
def PCIeRegistry := String → List String

/-- `config.PCIeDevices[port][bdf] = true`: map-style insertion — a BDF
already present for the port leaves the set unchanged. -/
def registryInsert (reg : PCIeRegistry) (port bdf : String) : PCIeRegistry :=
  fun p =>
    if p = port then (if bdf ∈ reg port then reg port else bdf :: reg port)
    else reg p

/-- The per-member loop in `Attach` (vfio.go lines 72–78): for each PCIe
member, the bus index is the cardinality of its port's occupied set
before insertion, the guest bus label is the port's prefix (from
`config.PCIePortPrefixMapping`, passed as `prefixMap`) concatenated with
that index, and the member's BDF is then inserted into the port's set.
Non-PCIe members are left untouched. -/
def reservePCIe (prefixMap : String → String) :
    List VFIODev → PCIeRegistry → List VFIODev × PCIeRegistry
  | [], reg => ([], reg)
  | vfio :: rest, reg =>
    if vfio.IsPCIe then
      let busIndex := (reg vfio.Port).length
      let vfio' := { vfio with Bus := prefixMap vfio.Port ++ Nat.repr busIndex }
      let (rest', reg'') := reservePCIe prefixMap rest (registryInsert reg vfio.Port vfio.BDF)
      (vfio' :: rest', reg'')
    else
      let (rest', reg') := reservePCIe prefixMap rest reg
      (vfio :: rest', reg')

/-- A call made to the external device receiver. -/
inductive ReceiverCall where
  | append
  | hotplugAdd
  | hotplugRemove
deriving DecidableEq, Repr

/-- The environment `Attach` runs in: the result of
`GetAllVFIODevicesFromIOMMUGroup` (modelled from the spec: group
resolution either fully succeeds with the member list or fails with no
devices — the function is not under src/), the receiver's responses to
`AppendDevice` / `HotplugAddDevice` (`none` = success), and the port
prefix mapping. -/
structure AttachEnv where
  resolve : Except String (List VFIODev)
  appendDevice : Option String
  hotplugAddDevice : Option String
  prefixMap : String → String

/-- The state after an `Attach` call: the updated device, the updated
PCIe registry, the receiver calls made, and the returned error. -/
structure AttachResult where
  device : VFIODevice
  reg : PCIeRegistry
  calls : List ReceiverCall
  err : Option String

/-- `VFIODevice.Attach` (vfio.go lines 53–101): gate through
`bumpAttachCount true` (skip ⇒ immediate success); assign `VfioDevs` from
group resolution (an error there still assigns — the nil slice — and is
compensated); run the PCIe reservation loop; hand off to the receiver
(append when cold-plug, hotplug-add otherwise); on any error after the
successful bump, run the deferred compensating `bumpAttachCount false`
before returning the error. -/
def VFIODevice.Attach (env : AttachEnv) (device : VFIODevice)
    (reg : PCIeRegistry) : AttachResult :=
  match bumpAttachCount true device.Generic.AttachCount with
  | .error e => ⟨device, reg, [], some e⟩
  | .ok (skip, c) =>
    let device := { device with Generic := { device.Generic with AttachCount := c } }
    if skip then ⟨device, reg, [], none⟩
    else
      match env.resolve with
      | .error e =>
        ⟨{ device with
             VfioDevs := []
             Generic := { device.Generic with AttachCount := compensateBump false c } },
          reg, [], some e⟩
      | .ok devs =>
        let (devs', reg') := reservePCIe env.prefixMap devs reg
        let device := { device with VfioDevs := devs' }
        if device.Generic.DevInfo.ColdPlug then
          match env.appendDevice with
          | some e =>
            ⟨{ device with
                 Generic := { device.Generic with AttachCount := compensateBump false c } },
              reg', [.append], some e⟩
          | none => ⟨device, reg', [.append], none⟩
        else
          match env.hotplugAddDevice with
          | some e =>
            ⟨{ device with
                 Generic := { device.Generic with AttachCount := compensateBump false c } },
              reg', [.hotplugAdd], some e⟩
          | none => ⟨device, reg', [.hotplugAdd], none⟩

/-- The state after a `Detach` call: the updated device, the receiver
calls made, and the returned error. -/
structure DetachResult where
  device : VFIODevice
  calls : List ReceiverCall
  err : Option String

/-- `VFIODevice.Detach` (vfio.go lines 105–140): gate through
`bumpAttachCount false` (skip ⇒ immediate success); a cold-plugged device
returns success without contacting the receiver; otherwise call the
receiver's `HotplugRemoveDevice` (`hotplugRemove` is its response,
`none` = success); on an error after the successful bump, run the
deferred compensating `bumpAttachCount true` before returning it. -/
def VFIODevice.Detach (hotplugRemove : Option String) (device : VFIODevice) :
    DetachResult :=
  match bumpAttachCount false device.Generic.AttachCount with
  | .error e => ⟨device, [], some e⟩
  | .ok (skip, c) =>
    let device := { device with Generic := { device.Generic with AttachCount := c } }
    if skip then ⟨device, [], none⟩
    else if device.Generic.DevInfo.ColdPlug then ⟨device, [], none⟩
    else
      match hotplugRemove with
      | some e =>
        ⟨{ device with
             Generic := { device.Generic with AttachCount := compensateBump true c } },
          [.hotplugRemove], some e⟩
      | none => ⟨device, [.hotplugRemove], none⟩

/-! ### Persistence: Save / Load (vfio.go lines 152–196) -/

/-- Modelled from the spec: the `config` device-kind tag string written
into the persisted state by `DeviceType()` (Go name: DeviceVFIO). -/
def DeviceVfio : String := "vfio"

/-- `VFIODevice.DeviceType` (vfio.go lines 143–145). -/
def VFIODevice.DeviceType (_device : VFIODevice) : String := DeviceVfio

/-- Modelled from the spec: `config.DeviceState` — the device-kind tag
plus the ordered list of persisted `VFIODev` records, embedded in the
generic device's persisted state (ID, `DeviceInfo`, attach count). The Go
field `Type` is spelled `Typ` here. -/
structure DeviceState where
  ID : String
  DevInfo : DeviceInfo
  AttachCount : Nat
  Typ : String
  VFIODevs : List VFIODev
deriving DecidableEq, Repr

/-- Modelled from the spec: `GenericDevice.Save` (not under src/)
persists the generic fields into the device state. -/
def GenericDevice.Save (device : GenericDevice) : DeviceState :=
  { ID := device.ID, DevInfo := device.DevInfo,
    AttachCount := device.AttachCount, Typ := "", VFIODevs := [] }

/-- Modelled from the spec: `GenericDevice.Load` (not under src/)
restores the generic fields from the device state. -/
def GenericDevice.Load (ds : DeviceState) : GenericDevice :=
  { ID := ds.ID, DevInfo := ds.DevInfo, AttachCount := ds.AttachCount }

/-- `VFIODevice.Save` (vfio.go lines 152–164): the generic state with the
type tag set and every group member appended to the persisted record
list. (Go appends each non-nil pointer; a Lean list has no nil entries.) -/
def VFIODevice.Save (device : VFIODevice) : DeviceState :=
  let ds := device.Generic.Save
  let ds := { ds with Typ := device.DeviceType }
  { ds with VFIODevs := ds.VFIODevs ++ device.VfioDevs }

/-- The per-record loop of `VFIODevice.Load` (vfio.go lines 171–195):
PCI-normal and PCI-mediated records are rebuilt with ID, type, BDF and
sysfs path; AP-mediated records with only ID and sysfs path (the other
fields are Go zero values); an unrecognized type tag logs an error and
returns from `Load`, so it stops the whole loop. -/
def loadVFIODevs : List VFIODev → List VFIODev
  | [] => []
  | dev :: rest =>
    match dev.Typ with
    | .VFIOPCIDeviceNormalType =>
      { ID := dev.ID, Typ := dev.Typ, BDF := dev.BDF, SysfsDev := dev.SysfsDev,
        IsPCIe := false, Port := "", Bus := "" } :: loadVFIODevs rest
    | .VFIOPCIDeviceMediatedType =>
      { ID := dev.ID, Typ := dev.Typ, BDF := dev.BDF, SysfsDev := dev.SysfsDev,
        IsPCIe := false, Port := "", Bus := "" } :: loadVFIODevs rest
    | .VFIOAPDeviceMediatedType =>
      { ID := dev.ID, Typ := .VFIODeviceErrorType, BDF := "", SysfsDev := dev.SysfsDev,
        IsPCIe := false, Port := "", Bus := "" } :: loadVFIODevs rest
    | .VFIODeviceErrorType => []

/-- `VFIODevice.Load` (vfio.go lines 166–196): replace the generic base
with the restored one and append the rebuilt records to `VfioDevs`.
Returns nothing but the device — `Load` has no error result. -/
def VFIODevice.Load (device : VFIODevice) (ds : DeviceState) : VFIODevice :=
  { Generic := GenericDevice.Load ds
    VfioDevs := device.VfioDevs ++ loadVFIODevs ds.VFIODevs }

/-! ### Host driver rebind protocol (vfio.go lines 24–32, 254–322) -/

def pciDriverUnbindPath (bdf : String) : String :=
  "/sys/bus/pci/devices/" ++ bdf ++ "/driver/unbind"

def pciDriverBindPath (driver : String) : String :=
  "/sys/bus/pci/drivers/" ++ driver ++ "/bind"

def vfioNewIDPath : String := "/sys/bus/pci/drivers/vfio-pci/new_id"

def vfioRemoveIDPath : String := "/sys/bus/pci/drivers/vfio-pci/remove_id"

def iommuGroupPath (bdf : String) : String :=
  "/sys/bus/pci/devices/" ++ bdf ++ "/iommu_group"

def vfioDevPath (group : String) : String := "/dev/vfio/" ++ group

/-- The sysfs world the rebind protocol runs against: which control-file
writes succeed, and what each symlink resolves to (`none` = resolution
fails). -/
structure SysfsState where
  writeOk : String → Bool
  readlink : String → Option String

/-- Modelled from the spec: `utils.WriteToFile` (not under src/) writes
the content to the sysfs control path and fails exactly when the world
says so (`none` = success). -/
def WriteToFile (st : SysfsState) (path _content : String) : Option String :=
  if st.writeOk path then none else some ("write to " ++ path ++ " failed")

/-- Go BindDevicetoVFIO (vfio.go lines 254–294): write `bdf` to the
device's driver-unbind file (fatal on failure), write `vendorDeviceID` to
vfio-pci's `new_id` file (fatal), best-effort write of `bdf` to vfio-pci's
explicit bind file (result ignored), resolve the `iommu_group` symlink
(fatal) and return `/dev/vfio/<base of the link target>`. The result is
the ordered list of `(path, content)` writes attempted plus Go's
`(string, error)` return. -/
def BindDevicetoVfio (st : SysfsState) (bdf _hostDriver vendorDeviceID : String) :
    List (String × String) × Except String String :=
  let unbindDriverPath := pciDriverUnbindPath bdf
  match WriteToFile st unbindDriverPath bdf with
  | some e => ([(unbindDriverPath, bdf)], .error e)
  | none =>
    match WriteToFile st vfioNewIDPath vendorDeviceID with
    | some e =>
      ([(unbindDriverPath, bdf), (vfioNewIDPath, vendorDeviceID)], .error e)
    | none =>
      let bindDriverPath := pciDriverBindPath "vfio-pci"
      let trace := [(unbindDriverPath, bdf), (vfioNewIDPath, vendorDeviceID),
        (bindDriverPath, bdf)]
      match st.readlink (iommuGroupPath bdf) with
      | none => (trace, .error ("readlink " ++ iommuGroupPath bdf ++ " failed"))
      | some groupPath => (trace, .ok (vfioDevPath (filepathBase groupPath)))

/-- `BindDevicetoHost` (vfio.go lines 297–322): write `bdf` to vfio-pci's
unbind file (fatal), write `vendorDeviceID` to vfio-pci's `remove_id`
file (fatal), write `bdf` to the host driver's bind file and return that
write's result. The result is the ordered list of `(path, content)`
writes attempted plus Go's error return. -/
def BindDevicetoHost (st : SysfsState) (bdf hostDriver vendorDeviceID : String) :
    List (String × String) × Option String :=
  let unbindDriverPath := pciDriverUnbindPath bdf
  match WriteToFile st unbindDriverPath bdf with
  | some e => ([(unbindDriverPath, bdf)], some e)
  | none =>
    match WriteToFile st vfioRemoveIDPath vendorDeviceID with
    | some e =>
      ([(unbindDriverPath, bdf), (vfioRemoveIDPath, vendorDeviceID)], some e)
    | none =>
      let bindDriverPath := pciDriverBindPath hostDriver
      ([(unbindDriverPath, bdf), (vfioRemoveIDPath, vendorDeviceID),
        (bindDriverPath, bdf)],
        WriteToFile st bindDriverPath bdf)

/-- The Go zero value of `VFIODevice`, as allocated before `Load` is
called on a freshly restored device. -/
def emptyVFIODevice : VFIODevice :=
  { Generic := { ID := "", DevInfo := { ID := "", HostPath := "", ColdPlug := false },
                 AttachCount := 0 }
    VfioDevs := [] }

/-! ### Helper lemmas -/

/-- The PCIe reservation loop keeps every member of the group: the output
list has the same length as the input list. -/
theorem reservePCIe_fst_length (pm : String → String) :
    ∀ (l : List VFIODev) (reg : PCIeRegistry),
      ((reservePCIe pm l reg).1).length = l.length := by
  intro l
  induction l with
  | nil => intro reg; simp [reservePCIe]
  | cons vfio rest ih =>
    intro reg
    by_cases h : vfio.IsPCIe
    · simp [reservePCIe, h, ih]
    · simp [reservePCIe, h, ih]

/-- Inserting a BDF into a port's set makes it a member. -/
theorem registryInsert_self_mem (reg : PCIeRegistry) (port bdf : String) :
    bdf ∈ registryInsert reg port bdf port := by
  by_cases h : bdf ∈ reg port <;> simp [registryInsert, h]

/-- Insertion never removes a member from any port's set. -/
theorem registryInsert_mem_mono (reg : PCIeRegistry) (port bdf p x : String)
    (h : x ∈ reg p) : x ∈ registryInsert reg port bdf p := by
  by_cases hp : p = port
  · subst hp
    by_cases hb : bdf ∈ reg p <;> simp [registryInsert, hb, h]
  · simp [registryInsert, hp, h]

/-- The PCIe reservation loop never removes a BDF from any port's set. -/
theorem reservePCIe_mem_mono (pm : String → String) :
    ∀ (l : List VFIODev) (reg : PCIeRegistry) (p x : String),
      x ∈ reg p → x ∈ (reservePCIe pm l reg).2 p := by
  intro l
  induction l with
  | nil => intro reg p x h; simpa [reservePCIe] using h
  | cons vfio rest ih =>
    intro reg p x h
    by_cases hP : vfio.IsPCIe
    · simp only [reservePCIe, hP, if_true]
      exact ih _ _ _ (registryInsert_mem_mono _ _ _ _ _ h)
    · simp only [reservePCIe, hP, if_false]
      exact ih _ _ _ h

/-! ### Claim theorems -/

/-- C9: for a PCI-normal group member, `GetVFIODetails` returns the BDF
equal to the raw group-member file name itself with no truncation, and
the sysfs device path equal to the canonical PCI devices path joined
with that file name, with no error. -/
theorem C9_pci_normal_details (getType : String → VFIODeviceType × Option String)
    (getSysfsDev : String → String × Option String)
    (deviceFileName iommuDevicesPath : String)
    (h : getType (filepathJoin iommuDevicesPath deviceFileName) =
      (.VFIOPCIDeviceNormalType, none)) :
    GetVFIODetails getType getSysfsDev deviceFileName iommuDevicesPath =
      ⟨deviceFileName, filepathJoin SysBusPciDevicesPath deviceFileName,
        .VFIOPCIDeviceNormalType, none⟩ := by
  simp [GetVFIODetails, h]

/-- C9 witness: the PCI-normal member `0000:02:10.0` comes back with its
BDF unchanged and the canonical sysfs path. -/
theorem C9_pci_normal_details_witness :
    GetVFIODetails (fun _ => (.VFIOPCIDeviceNormalType, none)) (fun s => (s, none))
        "0000:02:10.0" "/sys/kernel/iommu_groups/3/devices" =
      ⟨"0000:02:10.0", "/sys/bus/pci/devices/0000:02:10.0",
        .VFIOPCIDeviceNormalType, none⟩ :=
  C9_pci_normal_details (fun _ => (.VFIOPCIDeviceNormalType, none)) (fun s => (s, none))
    "0000:02:10.0" "/sys/kernel/iommu_groups/3/devices" (by decide)

/-- C10: the claim path (Go BindDevicetoVFIO) never reads its `hostDriver`
argument — for
any two calls with the same `bdf` and `vendorDeviceID` against the same
sysfs state but different `hostDriver` values, the sequence of sysfs
writes performed and the returned (path, error) pair are identical. -/
theorem C10_hostDriver_not_read (st : SysfsState) (bdf vendorDeviceID hd1 hd2 : String) :
    BindDevicetoVfio st bdf hd1 vendorDeviceID =
      BindDevicetoVfio st bdf hd2 vendorDeviceID := rfl

/-- C7: `Detach` on a cold-plugged device whose reference count reaches
zero (skip = false, i.e. the stored count was 1) makes no receiver call
at all — in particular no hotplug-remove — and returns success. -/
theorem C7_detach_cold_plug (hotplugRemove : Option String) (device : VFIODevice)
    (hcold : device.Generic.DevInfo.ColdPlug = true)
    (hcount : device.Generic.AttachCount = 1) :
    (VFIODevice.Detach hotplugRemove device).calls = [] ∧
      (VFIODevice.Detach hotplugRemove device).err = none := by
  obtain ⟨⟨id, info, count⟩, devs⟩ := device
  simp only at hcold hcount
  subst hcount
  simp [VFIODevice.Detach, bumpAttachCount, hcold]

/-- C7 witness: a concrete cold-plugged device with count 1 detaches with
no receiver call and no error. -/
theorem C7_detach_cold_plug_witness :
    (VFIODevice.Detach (some "remove failed")
        { Generic := { ID := "dev0", DevInfo := ⟨"dev0", "/dev/vfio/3", true⟩, AttachCount := 1 }
          VfioDevs := [] }).calls = [] ∧
      (VFIODevice.Detach (some "remove failed")
        { Generic := { ID := "dev0", DevInfo := ⟨"dev0", "/dev/vfio/3", true⟩, AttachCount := 1 }
          VfioDevs := [] }).err = none :=
  C7_detach_cold_plug (some "remove failed") _ (by decide) (by decide)

/-- C1 counterexample: on the resolved mediated path
`/sys/devices/pci0000:00/0000:00:02.0/<uuid>` the second-to-last
`/`-delimited segment is `0000:00:02.0`, but `GetVFIODetails` returns
`00:02.0` as the BDF — `GetBDF` strips the segment's leading domain —
so the BDF is not equal to the second-to-last segment as claimed. -/
theorem C1_as_stated_false :
    getMediatedBDF "/sys/devices/pci0000:00/0000:00:02.0/f79944e4-5a3d-11e8-99ce-479cbab002e4" =
        "0000:00:02.0" ∧
      (GetVFIODetails (fun _ => (.VFIOPCIDeviceMediatedType, none))
          (fun _ => ("/sys/devices/pci0000:00/0000:00:02.0/f79944e4-5a3d-11e8-99ce-479cbab002e4", none))
          "f79944e4-5a3d-11e8-99ce-479cbab002e4"
          "/sys/kernel/iommu_groups/3/devices").deviceBDF = "00:02.0" ∧
      (GetVFIODetails (fun _ => (.VFIOPCIDeviceMediatedType, none))
          (fun _ => ("/sys/devices/pci0000:00/0000:00:02.0/f79944e4-5a3d-11e8-99ce-479cbab002e4", none))
          "f79944e4-5a3d-11e8-99ce-479cbab002e4"
          "/sys/kernel/iommu_groups/3/devices").deviceBDF ≠ "0000:00:02.0" := by
  refine ⟨by decide, by decide, by decide⟩

/-- C1 (amended): for a PCI-mediated member whose sysfs symlink resolves
successfully, `GetVFIODetails` raises no error; when the resolved path
has at least 4 `/`-delimited tokens the returned BDF is the second-to-last
token with everything up to and including its first `:` removed
(`GetBDF`), and when it has fewer than 4 tokens the returned BDF is the
empty string. -/
theorem C1_mediated_bdf (getType : String → VFIODeviceType × Option String)
    (getSysfsDev : String → String × Option String)
    (deviceFileName iommuDevicesPath resolved : String)
    (ht : getType (filepathJoin iommuDevicesPath deviceFileName) =
      (.VFIOPCIDeviceMediatedType, none))
    (hs : getSysfsDev (filepathJoin iommuDevicesPath deviceFileName) =
      (resolved, none)) :
    (GetVFIODetails getType getSysfsDev deviceFileName iommuDevicesPath).err = none ∧
      (4 ≤ (goSplit resolved '/').length →
        (GetVFIODetails getType getSysfsDev deviceFileName iommuDevicesPath).deviceBDF =
          GetBDF ((goSplit resolved '/').getD ((goSplit resolved '/').length - 2) "")) ∧
      ((goSplit resolved '/').length < 4 →
        (GetVFIODetails getType getSysfsDev deviceFileName iommuDevicesPath).deviceBDF = "") := by
  refine ⟨?_, ?_, ?_⟩
  · simp [GetVFIODetails, ht, hs]
  · intro h4
    have hlt : ¬ (goSplit resolved '/').length < 4 := by omega
    simp [GetVFIODetails, ht, hs, getMediatedBDF, hlt]
  · intro h4
    simp [GetVFIODetails, ht, hs, getMediatedBDF, h4, GetBDF, splitN2, breakAtChar]

/-- C1 witness: the amended statement instantiated on the concrete
resolved path `/sys/devices/pci0000:00/0000:00:02.0/<uuid>`, together
with the concrete value `00:02.0` the amended rule produces there. -/
theorem C1_mediated_bdf_witness :
    ((GetVFIODetails (fun _ => (.VFIOPCIDeviceMediatedType, none))
        (fun _ => ("/sys/devices/pci0000:00/0000:00:02.0/f79944e4-5a3d-11e8-99ce-479cbab002e4", none))
        "f79944e4-5a3d-11e8-99ce-479cbab002e4"
        "/sys/kernel/iommu_groups/3/devices").err = none ∧
      (4 ≤ (goSplit "/sys/devices/pci0000:00/0000:00:02.0/f79944e4-5a3d-11e8-99ce-479cbab002e4" '/').length →
        (GetVFIODetails (fun _ => (.VFIOPCIDeviceMediatedType, none))
          (fun _ => ("/sys/devices/pci0000:00/0000:00:02.0/f79944e4-5a3d-11e8-99ce-479cbab002e4", none))
          "f79944e4-5a3d-11e8-99ce-479cbab002e4"
          "/sys/kernel/iommu_groups/3/devices").deviceBDF =
            GetBDF ((goSplit "/sys/devices/pci0000:00/0000:00:02.0/f79944e4-5a3d-11e8-99ce-479cbab002e4" '/').getD
              ((goSplit "/sys/devices/pci0000:00/0000:00:02.0/f79944e4-5a3d-11e8-99ce-479cbab002e4" '/').length - 2) "")) ∧
      ((goSplit "/sys/devices/pci0000:00/0000:00:02.0/f79944e4-5a3d-11e8-99ce-479cbab002e4" '/').length < 4 →
        (GetVFIODetails (fun _ => (.VFIOPCIDeviceMediatedType, none))
          (fun _ => ("/sys/devices/pci0000:00/0000:00:02.0/f79944e4-5a3d-11e8-99ce-479cbab002e4", none))
          "f79944e4-5a3d-11e8-99ce-479cbab002e4"
          "/sys/kernel/iommu_groups/3/devices").deviceBDF = "")) ∧
      GetBDF (getMediatedBDF "/sys/devices/pci0000:00/0000:00:02.0/f79944e4-5a3d-11e8-99ce-479cbab002e4") =
        "00:02.0" :=
  ⟨C1_mediated_bdf (fun _ => (.VFIOPCIDeviceMediatedType, none))
      (fun _ => ("/sys/devices/pci0000:00/0000:00:02.0/f79944e4-5a3d-11e8-99ce-479cbab002e4", none))
      "f79944e4-5a3d-11e8-99ce-479cbab002e4"
      "/sys/kernel/iommu_groups/3/devices"
      "/sys/devices/pci0000:00/0000:00:02.0/f79944e4-5a3d-11e8-99ce-479cbab002e4"
      rfl rfl,
    by decide⟩

/-- C2: whenever the initial reference-count bump of an Attach or Detach
succeeded with skip = false and a later step returns an error, the
deferred inverse bump restores the stored attach count to its value from
before the call. -/
theorem C2_bump_compensation :
    (∀ (env : AttachEnv) (device : VFIODevice) (reg : PCIeRegistry) (c : Nat) (e : String),
      bumpAttachCount true device.Generic.AttachCount = .ok (false, c) →
      (VFIODevice.Attach env device reg).err = some e →
      (VFIODevice.Attach env device reg).device.Generic.AttachCount =
        device.Generic.AttachCount) ∧
    (∀ (hotplugRemove : Option String) (device : VFIODevice) (c : Nat) (e : String),
      bumpAttachCount false device.Generic.AttachCount = .ok (false, c) →
      (VFIODevice.Detach hotplugRemove device).err = some e →
      (VFIODevice.Detach hotplugRemove device).device.Generic.AttachCount =
        device.Generic.AttachCount) := by
  constructor
  · intro env device reg c e hb herr
    obtain ⟨⟨id, info, count⟩, devs⟩ := device
    simp only [bumpAttachCount, if_true] at hb
    simp only [Except.ok.injEq, Prod.mk.injEq, decide_eq_false_iff_not, not_lt] at hb
    have hcount : count = 0 := by omega
    subst hcount
    simp only [VFIODevice.Attach,
      show bumpAttachCount true 0 = Except.ok (false, 1) from rfl] at herr ⊢
    rcases hres : env.resolve with e' | devs2 <;> simp only [hres] at herr ⊢
    · simp [compensateBump, bumpAttachCount]
    · rcases hp : reservePCIe env.prefixMap devs2 reg with ⟨devs', reg'⟩
      simp only [hp] at herr ⊢
      rcases info with ⟨iid, ipath, icold⟩
      cases icold <;> simp only [Bool.false_eq_true, if_true, if_false] at herr ⊢
      · rcases hh : env.hotplugAddDevice with _ | e'' <;> simp only [hh] at herr ⊢
        · simp at herr
        · simp [compensateBump, bumpAttachCount]
      · rcases ha : env.appendDevice with _ | e'' <;> simp only [ha] at herr ⊢
        · simp at herr
        · simp [compensateBump, bumpAttachCount]
  · intro hotplugRemove device c e hb herr
    obtain ⟨⟨id, info, count⟩, devs⟩ := device
    rcases hc0 : count with _ | n
    · subst hc0; simp [bumpAttachCount] at hb
    · subst hc0
      rcases hn0 : n with _ | m
      · subst hn0
        clear hb
        simp only [VFIODevice.Detach,
          show bumpAttachCount false 1 = Except.ok (false, 0) from rfl] at herr ⊢
        rcases info with ⟨iid, ipath, icold⟩
        cases icold <;> simp only [if_true, if_false] at herr ⊢
        · rcases hh : hotplugRemove with _ | e'' <;> simp only [hh] at herr ⊢
          · simp at herr
          · simp [compensateBump, bumpAttachCount]
        · simp at herr
      · subst hn0
        simp [bumpAttachCount] at hb

/-- C2 witness: a failed Attach (group resolution fails) on a device with
count 0 leaves the count at 0, and a failed Detach (hotplug-remove fails)
on a hot-plugged device with count 1 leaves the count at 1. -/
theorem C2_bump_compensation_witness :
    (VFIODevice.Attach ⟨.error "resolve failed", none, none, fun _ => ""⟩
        { Generic := { ID := "dev0", DevInfo := ⟨"dev0", "/g3", false⟩, AttachCount := 0 }
          VfioDevs := [] } (fun _ => [])).device.Generic.AttachCount = 0 ∧
      (VFIODevice.Detach (some "remove failed")
        { Generic := { ID := "dev0", DevInfo := ⟨"dev0", "/g3", false⟩, AttachCount := 1 }
          VfioDevs := [] }).device.Generic.AttachCount = 1 :=
  ⟨C2_bump_compensation.1 ⟨.error "resolve failed", none, none, fun _ => ""⟩
      { Generic := { ID := "dev0", DevInfo := ⟨"dev0", "/g3", false⟩, AttachCount := 0 }
        VfioDevs := [] } (fun _ => []) 1 "resolve failed" rfl rfl,
    C2_bump_compensation.2 (some "remove failed")
      { Generic := { ID := "dev0", DevInfo := ⟨"dev0", "/g3", false⟩, AttachCount := 1 }
        VfioDevs := [] } 0 "remove failed" rfl rfl⟩

/-- Incrementing a positive count yields skip = true. -/
theorem bumpAttachCount_true_succ (n : Nat) :
    bumpAttachCount true (n + 1) = .ok (true, n + 2) := by
  simp [bumpAttachCount]

/-- C3 counterexample: an Attach that fails at the receiver hand-off
(hotplug add fails) returns an error yet leaves `VfioDevs` non-empty,
holding the resolved group. -/
theorem C3_as_stated_false :
    (VFIODevice.Attach
        ⟨.ok [⟨"vfio-0", .VFIOPCIDeviceNormalType, "0000:01:00.0",
            "/sys/bus/pci/devices/0000:01:00.0", false, "", ""⟩],
          none, some "hotplug add failed", fun _ => ""⟩
        { Generic := { ID := "dev0", DevInfo := ⟨"dev0", "/g3", false⟩, AttachCount := 0 }
          VfioDevs := [] } (fun _ => [])).err = some "hotplug add failed" ∧
      (VFIODevice.Attach
        ⟨.ok [⟨"vfio-0", .VFIOPCIDeviceNormalType, "0000:01:00.0",
            "/sys/bus/pci/devices/0000:01:00.0", false, "", ""⟩],
          none, some "hotplug add failed", fun _ => ""⟩
        { Generic := { ID := "dev0", DevInfo := ⟨"dev0", "/g3", false⟩, AttachCount := 0 }
          VfioDevs := [] } (fun _ => [])).device.VfioDevs ≠ [] := by
  refine ⟨rfl, by decide⟩

/-- C3 (amended): starting from an empty `VfioDevs`, a skipped Attach
(count already positive) leaves it empty; an Attach that fails at group
resolution leaves it empty; an Attach that passes the gate with a
successful resolution — whether the receiver hand-off then succeeds or
fails — leaves `VfioDevs` equal to the fully resolved group (never a
partial one), of the same length as the resolver's list and non-empty
whenever that list is non-empty. -/
theorem C3_vfio_devs_population :
    (∀ (env : AttachEnv) (device : VFIODevice) (reg : PCIeRegistry),
      device.VfioDevs = [] → device.Generic.AttachCount ≠ 0 →
      (VFIODevice.Attach env device reg).device.VfioDevs = []) ∧
    (∀ (env : AttachEnv) (device : VFIODevice) (reg : PCIeRegistry) (e : String),
      device.Generic.AttachCount = 0 → env.resolve = .error e →
      (VFIODevice.Attach env device reg).device.VfioDevs = []) ∧
    (∀ (env : AttachEnv) (device : VFIODevice) (reg : PCIeRegistry) (devs : List VFIODev),
      device.Generic.AttachCount = 0 → env.resolve = .ok devs →
      (VFIODevice.Attach env device reg).device.VfioDevs =
          (reservePCIe env.prefixMap devs reg).1 ∧
        ((VFIODevice.Attach env device reg).device.VfioDevs).length = devs.length ∧
        (devs ≠ [] → (VFIODevice.Attach env device reg).device.VfioDevs ≠ [])) := by
  refine ⟨?_, ?_, ?_⟩
  · intro env device reg h0 hc
    obtain ⟨⟨id, info, count⟩, devs⟩ := device
    simp only at h0 hc
    subst h0
    rcases count with _ | n
    · exact absurd rfl hc
    · simp [VFIODevice.Attach, bumpAttachCount_true_succ]
  · intro env device reg e hc hres
    obtain ⟨⟨id, info, count⟩, devs⟩ := device
    simp only at hc
    subst hc
    simp [VFIODevice.Attach, show bumpAttachCount true 0 = Except.ok (false, 1) from rfl,
      hres]
  · intro env device reg devs2 hc hres
    obtain ⟨⟨id, info, count⟩, devs⟩ := device
    simp only at hc
    subst hc
    have hmain : (VFIODevice.Attach env ⟨⟨id, info, 0⟩, devs⟩ reg).device.VfioDevs =
        (reservePCIe env.prefixMap devs2 reg).1 := by
      simp only [VFIODevice.Attach,
        show bumpAttachCount true 0 = Except.ok (false, 1) from rfl, hres]
      rcases hp : reservePCIe env.prefixMap devs2 reg with ⟨devs', reg'⟩
      rcases info with ⟨iid, ipath, icold⟩
      cases icold
      · rcases hh : env.hotplugAddDevice with _ | e'' <;> simp [hh]
      · rcases ha : env.appendDevice with _ | e'' <;> simp [ha]
    refine ⟨hmain, ?_, ?_⟩
    · rw [hmain, reservePCIe_fst_length]
    · intro hne
      rw [hmain]
      intro hcontra
      have := reservePCIe_fst_length env.prefixMap devs2 reg
      rw [hcontra] at this
      simp at this
      exact hne (List.length_eq_zero.mp this.symm)

/-- C3 witness: the amended statement applied at concrete inputs — a
skipped Attach (count 1), an Attach failing at resolution, and an Attach
passing the gate with a one-member resolved group. -/
theorem C3_vfio_devs_population_witness :
    ((VFIODevice.Attach ⟨.ok [], none, none, fun _ => ""⟩
        { Generic := { ID := "dev0", DevInfo := ⟨"dev0", "/g3", false⟩, AttachCount := 1 }
          VfioDevs := [] } (fun _ => [])).device.VfioDevs = []) ∧
      ((VFIODevice.Attach ⟨.error "resolve failed", none, none, fun _ => ""⟩
        { Generic := { ID := "dev0", DevInfo := ⟨"dev0", "/g3", false⟩, AttachCount := 0 }
          VfioDevs := [] } (fun _ => [])).device.VfioDevs = []) ∧
      ((VFIODevice.Attach
          ⟨.ok [⟨"vfio-0", .VFIOPCIDeviceNormalType, "0000:01:00.0",
              "/sys/bus/pci/devices/0000:01:00.0", false, "", ""⟩], none, none, fun _ => ""⟩
          { Generic := { ID := "dev0", DevInfo := ⟨"dev0", "/g3", false⟩, AttachCount := 0 }
            VfioDevs := [] } (fun _ => [])).device.VfioDevs =
          (reservePCIe (fun _ => "")
            [⟨"vfio-0", .VFIOPCIDeviceNormalType, "0000:01:00.0",
              "/sys/bus/pci/devices/0000:01:00.0", false, "", ""⟩] (fun _ => [])).1 ∧
        ((VFIODevice.Attach
          ⟨.ok [⟨"vfio-0", .VFIOPCIDeviceNormalType, "0000:01:00.0",
              "/sys/bus/pci/devices/0000:01:00.0", false, "", ""⟩], none, none, fun _ => ""⟩
          { Generic := { ID := "dev0", DevInfo := ⟨"dev0", "/g3", false⟩, AttachCount := 0 }
            VfioDevs := [] } (fun _ => [])).device.VfioDevs).length =
          ([⟨"vfio-0", .VFIOPCIDeviceNormalType, "0000:01:00.0",
              "/sys/bus/pci/devices/0000:01:00.0", false, "", ""⟩] : List VFIODev).length ∧
        (([⟨"vfio-0", .VFIOPCIDeviceNormalType, "0000:01:00.0",
              "/sys/bus/pci/devices/0000:01:00.0", false, "", ""⟩] : List VFIODev) ≠ [] →
          (VFIODevice.Attach
            ⟨.ok [⟨"vfio-0", .VFIOPCIDeviceNormalType, "0000:01:00.0",
                "/sys/bus/pci/devices/0000:01:00.0", false, "", ""⟩], none, none, fun _ => ""⟩
            { Generic := { ID := "dev0", DevInfo := ⟨"dev0", "/g3", false⟩, AttachCount := 0 }
              VfioDevs := [] } (fun _ => [])).device.VfioDevs ≠ [])) :=
  ⟨C3_vfio_devs_population.1 ⟨.ok [], none, none, fun _ => ""⟩
      { Generic := { ID := "dev0", DevInfo := ⟨"dev0", "/g3", false⟩, AttachCount := 1 }
        VfioDevs := [] } (fun _ => []) rfl (by decide),
    C3_vfio_devs_population.2.1 ⟨.error "resolve failed", none, none, fun _ => ""⟩
      { Generic := { ID := "dev0", DevInfo := ⟨"dev0", "/g3", false⟩, AttachCount := 0 }
        VfioDevs := [] } (fun _ => []) "resolve failed" rfl rfl,
    C3_vfio_devs_population.2.2
      ⟨.ok [⟨"vfio-0", .VFIOPCIDeviceNormalType, "0000:01:00.0",
          "/sys/bus/pci/devices/0000:01:00.0", false, "", ""⟩], none, none, fun _ => ""⟩
      { Generic := { ID := "dev0", DevInfo := ⟨"dev0", "/g3", false⟩, AttachCount := 0 }
        VfioDevs := [] } (fun _ => [])
      [⟨"vfio-0", .VFIOPCIDeviceNormalType, "0000:01:00.0",
          "/sys/bus/pci/devices/0000:01:00.0", false, "", ""⟩] rfl rfl⟩

/-- C4: in the claim path (Go BindDevicetoVFIO) a failed write to vfio-pci's explicit bind
file is tolerated (with the other steps succeeding the call returns the
VFIO node path), while a failed driver-unbind write, a failed `new_id`
write, or a failed `iommu_group` symlink resolution each makes the call
return an error; in `BindDevicetoHost` a failure of any of its three
writes (vfio-pci unbind, `remove_id`, host-driver bind) makes the call
return that write's error. -/
theorem C4_rebind_error_policy :
    (∀ (st : SysfsState) (bdf hd vid gp : String),
      st.writeOk (pciDriverUnbindPath bdf) = true →
      st.writeOk vfioNewIDPath = true →
      st.writeOk (pciDriverBindPath "vfio-pci") = false →
      st.readlink (iommuGroupPath bdf) = some gp →
      (BindDevicetoVfio st bdf hd vid).2 = .ok (vfioDevPath (filepathBase gp))) ∧
    (∀ (st : SysfsState) (bdf hd vid : String),
      st.writeOk (pciDriverUnbindPath bdf) = false →
      (BindDevicetoVfio st bdf hd vid).2 =
        .error ("write to " ++ pciDriverUnbindPath bdf ++ " failed")) ∧
    (∀ (st : SysfsState) (bdf hd vid : String),
      st.writeOk (pciDriverUnbindPath bdf) = true →
      st.writeOk vfioNewIDPath = false →
      (BindDevicetoVfio st bdf hd vid).2 =
        .error ("write to " ++ vfioNewIDPath ++ " failed")) ∧
    (∀ (st : SysfsState) (bdf hd vid : String),
      st.writeOk (pciDriverUnbindPath bdf) = true →
      st.writeOk vfioNewIDPath = true →
      st.readlink (iommuGroupPath bdf) = none →
      (BindDevicetoVfio st bdf hd vid).2 =
        .error ("readlink " ++ iommuGroupPath bdf ++ " failed")) ∧
    (∀ (st : SysfsState) (bdf hd vid : String),
      st.writeOk (pciDriverUnbindPath bdf) = false →
      (BindDevicetoHost st bdf hd vid).2 =
        some ("write to " ++ pciDriverUnbindPath bdf ++ " failed")) ∧
    (∀ (st : SysfsState) (bdf hd vid : String),
      st.writeOk (pciDriverUnbindPath bdf) = true →
      st.writeOk vfioRemoveIDPath = false →
      (BindDevicetoHost st bdf hd vid).2 =
        some ("write to " ++ vfioRemoveIDPath ++ " failed")) ∧
    (∀ (st : SysfsState) (bdf hd vid : String),
      st.writeOk (pciDriverUnbindPath bdf) = true →
      st.writeOk vfioRemoveIDPath = true →
      st.writeOk (pciDriverBindPath hd) = false →
      (BindDevicetoHost st bdf hd vid).2 =
        some ("write to " ++ pciDriverBindPath hd ++ " failed")) := by
  refine ⟨?_, ?_, ?_, ?_, ?_, ?_, ?_⟩
  · intro st bdf hd vid gp h1 h2 _h3 h4
    simp [BindDevicetoVfio, WriteToFile, h1, h2, h4]
  · intro st bdf hd vid h1
    simp [BindDevicetoVfio, WriteToFile, h1]
  · intro st bdf hd vid h1 h2
    simp [BindDevicetoVfio, WriteToFile, h1, h2]
  · intro st bdf hd vid h1 h2 h4
    simp [BindDevicetoVfio, WriteToFile, h1, h2, h4]
  · intro st bdf hd vid h1
    simp [BindDevicetoHost, WriteToFile, h1]
  · intro st bdf hd vid h1 h2
    simp [BindDevicetoHost, WriteToFile, h1, h2]
  · intro st bdf hd vid h1 h2 h3
    simp [BindDevicetoHost, WriteToFile, h1, h2, h3]

/-- C4 witness: the error policy applied at concrete sysfs states — a
failing explicit-bind write still yields success, and each fatal step
failing yields that step's error, for both rebind directions. -/
theorem C4_rebind_error_policy_witness :
    ((BindDevicetoVfio
        ⟨fun p => decide (p ≠ pciDriverBindPath "vfio-pci"),
          fun _ => some "/sys/kernel/iommu_groups/3"⟩
        "0000:01:00.0" "ixgbe" "8086 10fb").2 =
      .ok (vfioDevPath (filepathBase "/sys/kernel/iommu_groups/3"))) ∧
    ((BindDevicetoVfio ⟨fun _ => false, fun _ => none⟩ "0000:01:00.0" "ixgbe" "8086 10fb").2 =
      .error ("write to " ++ pciDriverUnbindPath "0000:01:00.0" ++ " failed")) ∧
    ((BindDevicetoVfio
        ⟨fun p => decide (p = pciDriverUnbindPath "0000:01:00.0"), fun _ => none⟩
        "0000:01:00.0" "ixgbe" "8086 10fb").2 =
      .error ("write to " ++ vfioNewIDPath ++ " failed")) ∧
    ((BindDevicetoVfio ⟨fun _ => true, fun _ => none⟩ "0000:01:00.0" "ixgbe" "8086 10fb").2 =
      .error ("readlink " ++ iommuGroupPath "0000:01:00.0" ++ " failed")) ∧
    ((BindDevicetoHost ⟨fun _ => false, fun _ => none⟩ "0000:01:00.0" "ixgbe" "8086 10fb").2 =
      some ("write to " ++ pciDriverUnbindPath "0000:01:00.0" ++ " failed")) ∧
    ((BindDevicetoHost
        ⟨fun p => decide (p = pciDriverUnbindPath "0000:01:00.0"), fun _ => none⟩
        "0000:01:00.0" "ixgbe" "8086 10fb").2 =
      some ("write to " ++ vfioRemoveIDPath ++ " failed")) ∧
    ((BindDevicetoHost
        ⟨fun p => decide (p ≠ pciDriverBindPath "ixgbe"), fun _ => none⟩
        "0000:01:00.0" "ixgbe" "8086 10fb").2 =
      some ("write to " ++ pciDriverBindPath "ixgbe" ++ " failed")) :=
  ⟨C4_rebind_error_policy.1
      ⟨fun p => decide (p ≠ pciDriverBindPath "vfio-pci"),
        fun _ => some "/sys/kernel/iommu_groups/3"⟩
      "0000:01:00.0" "ixgbe" "8086 10fb" "/sys/kernel/iommu_groups/3"
      (by decide) (by decide) (by decide) rfl,
    C4_rebind_error_policy.2.1 ⟨fun _ => false, fun _ => none⟩
      "0000:01:00.0" "ixgbe" "8086 10fb" rfl,
    C4_rebind_error_policy.2.2.1
      ⟨fun p => decide (p = pciDriverUnbindPath "0000:01:00.0"), fun _ => none⟩
      "0000:01:00.0" "ixgbe" "8086 10fb" (by decide) (by decide),
    C4_rebind_error_policy.2.2.2.1 ⟨fun _ => true, fun _ => none⟩
      "0000:01:00.0" "ixgbe" "8086 10fb" rfl rfl rfl,
    C4_rebind_error_policy.2.2.2.2.1 ⟨fun _ => false, fun _ => none⟩
      "0000:01:00.0" "ixgbe" "8086 10fb" rfl,
    C4_rebind_error_policy.2.2.2.2.2.1
      ⟨fun p => decide (p = pciDriverUnbindPath "0000:01:00.0"), fun _ => none⟩
      "0000:01:00.0" "ixgbe" "8086 10fb" (by decide) (by decide),
    C4_rebind_error_policy.2.2.2.2.2.2
      ⟨fun p => decide (p ≠ pciDriverBindPath "ixgbe"), fun _ => none⟩
      "0000:01:00.0" "ixgbe" "8086 10fb" (by decide) (by decide) (by decide)⟩

/-- Rebuilding a record list stops unchanged before any unrecognized tag:
with every record in `pre` recognized and `bad` unrecognized, the loop
output for `pre ++ bad :: post` equals the output for `pre` alone. -/
theorem loadVFIODevs_append_stop :
    ∀ (pre : List VFIODev) (bad : VFIODev) (post : List VFIODev),
      (∀ d ∈ pre, d.Typ ≠ .VFIODeviceErrorType) →
      bad.Typ = .VFIODeviceErrorType →
      loadVFIODevs (pre ++ bad :: post) = loadVFIODevs pre := by
  intro pre
  induction pre with
  | nil =>
    intro bad post _ hbad
    obtain ⟨bid, bt, bbdf, bsys, bp, bport, bbus⟩ := bad
    simp only at hbad
    subst hbad
    simp [loadVFIODevs]
  | cons d rest ih =>
    intro bad post hrec hbad
    have hd := hrec d (List.mem_cons_self d rest)
    have hrest : ∀ x ∈ rest, x.Typ ≠ VFIODeviceType.VFIODeviceErrorType :=
      fun x hx => hrec x (List.mem_cons_of_mem d hx)
    obtain ⟨did, dt, dbdf, dsys, dp, dport, dbus⟩ := d
    simp only at hd
    cases dt
    · exact absurd rfl hd
    · simp [loadVFIODevs, ih bad post hrest hbad]
    · simp [loadVFIODevs, ih bad post hrest hbad]
    · simp [loadVFIODevs, ih bad post hrest hbad]

/-- Rebuilding a list of recognized records keeps its length. -/
theorem loadVFIODevs_length :
    ∀ (pre : List VFIODev),
      (∀ d ∈ pre, d.Typ ≠ .VFIODeviceErrorType) →
      (loadVFIODevs pre).length = pre.length := by
  intro pre
  induction pre with
  | nil => intro _; simp [loadVFIODevs]
  | cons d rest ih =>
    intro hrec
    have hd := hrec d (List.mem_cons_self d rest)
    have hrest : ∀ x ∈ rest, x.Typ ≠ VFIODeviceType.VFIODeviceErrorType :=
      fun x hx => hrec x (List.mem_cons_of_mem d hx)
    obtain ⟨did, dt, dbdf, dsys, dp, dport, dbus⟩ := d
    simp only at hd
    cases dt
    · exact absurd rfl hd
    · simp [loadVFIODevs, ih hrest]
    · simp [loadVFIODevs, ih hrest]
    · simp [loadVFIODevs, ih hrest]

/-- C5: a Save-then-Load round trip of a device with two PCI-normal
members reconstructs an equal `VfioDevs` sequence — same ID, type, BDF
and sysfs path per entry, in the same order — and an AP-mediated member
round-trips with only its ID and sysfs path populated and its BDF empty
(its type field is the zero value). -/
theorem C5_save_load_round_trip :
    (∀ (g : GenericDevice) (d1 d2 : VFIODev),
      d1.Typ = .VFIOPCIDeviceNormalType → d2.Typ = .VFIOPCIDeviceNormalType →
      (VFIODevice.Load emptyVFIODevice (VFIODevice.Save ⟨g, [d1, d2]⟩)).VfioDevs.map
          (fun d => (d.ID, d.Typ, d.BDF, d.SysfsDev)) =
        [(d1.ID, d1.Typ, d1.BDF, d1.SysfsDev), (d2.ID, d2.Typ, d2.BDF, d2.SysfsDev)]) ∧
    (∀ (g : GenericDevice) (a : VFIODev),
      a.Typ = .VFIOAPDeviceMediatedType →
      (VFIODevice.Load emptyVFIODevice (VFIODevice.Save ⟨g, [a]⟩)).VfioDevs =
        [⟨a.ID, .VFIODeviceErrorType, "", a.SysfsDev, false, "", ""⟩]) := by
  constructor
  · intro g d1 d2 h1 h2
    obtain ⟨id1, t1, bdf1, sys1, p1, port1, bus1⟩ := d1
    obtain ⟨id2, t2, bdf2, sys2, p2, port2, bus2⟩ := d2
    simp only at h1 h2
    subst h1
    subst h2
    simp [VFIODevice.Load, VFIODevice.Save, GenericDevice.Save, GenericDevice.Load,
      loadVFIODevs, emptyVFIODevice]
  · intro g a ha
    obtain ⟨ida, ta, bdfa, sysa, pa, porta, busa⟩ := a
    simp only at ha
    subst ha
    simp [VFIODevice.Load, VFIODevice.Save, GenericDevice.Save, GenericDevice.Load,
      loadVFIODevs, emptyVFIODevice]

/-- C5 witness: the round trip on two concrete PCI-normal members and on
a concrete AP-mediated member. -/
theorem C5_save_load_round_trip_witness :
    ((VFIODevice.Load emptyVFIODevice (VFIODevice.Save
        ⟨⟨"dev0", ⟨"dev0", "/g3", false⟩, 1⟩,
          [⟨"vfio-A", .VFIOPCIDeviceNormalType, "0000:01:00.0",
              "/sys/bus/pci/devices/0000:01:00.0", false, "", ""⟩,
            ⟨"vfio-B", .VFIOPCIDeviceNormalType, "0000:01:00.1",
              "/sys/bus/pci/devices/0000:01:00.1", false, "", ""⟩]⟩)).VfioDevs.map
        (fun d => (d.ID, d.Typ, d.BDF, d.SysfsDev)) =
      [("vfio-A", .VFIOPCIDeviceNormalType, "0000:01:00.0",
          "/sys/bus/pci/devices/0000:01:00.0"),
        ("vfio-B", .VFIOPCIDeviceNormalType, "0000:01:00.1",
          "/sys/bus/pci/devices/0000:01:00.1")]) ∧
    ((VFIODevice.Load emptyVFIODevice (VFIODevice.Save
        ⟨⟨"dev1", ⟨"dev1", "/gap", false⟩, 1⟩,
          [⟨"vfio-ap", .VFIOAPDeviceMediatedType, "",
              "/sys/devices/vfio_ap/matrix/uuid-1", false, "", ""⟩]⟩)).VfioDevs =
      [⟨"vfio-ap", .VFIODeviceErrorType, "", "/sys/devices/vfio_ap/matrix/uuid-1",
          false, "", ""⟩]) :=
  ⟨C5_save_load_round_trip.1 ⟨"dev0", ⟨"dev0", "/g3", false⟩, 1⟩
      ⟨"vfio-A", .VFIOPCIDeviceNormalType, "0000:01:00.0",
        "/sys/bus/pci/devices/0000:01:00.0", false, "", ""⟩
      ⟨"vfio-B", .VFIOPCIDeviceNormalType, "0000:01:00.1",
        "/sys/bus/pci/devices/0000:01:00.1", false, "", ""⟩ rfl rfl,
    C5_save_load_round_trip.2 ⟨"dev1", ⟨"dev1", "/gap", false⟩, 1⟩
      ⟨"vfio-ap", .VFIOAPDeviceMediatedType, "",
        "/sys/devices/vfio_ap/matrix/uuid-1", false, "", ""⟩ rfl⟩

/-- C6 counterexample: a persisted list holding an unrecognized record
followed by a recognized PCI-normal record loads to an empty `VfioDevs` —
the recognized record is not reconstructed, because the unrecognized tag
makes `Load` return and abandon the rest of the list. -/
theorem C6_as_stated_false :
    (⟨"good", .VFIOPCIDeviceNormalType, "0000:01:00.0",
        "/sys/bus/pci/devices/0000:01:00.0", false, "", ""⟩ : VFIODev) ∈
        (⟨"dev0", ⟨"dev0", "/g3", false⟩, 1, "vfio",
          [⟨"bad", .VFIODeviceErrorType, "", "", false, "", ""⟩,
            ⟨"good", .VFIOPCIDeviceNormalType, "0000:01:00.0",
              "/sys/bus/pci/devices/0000:01:00.0", false, "", ""⟩]⟩ : DeviceState).VFIODevs ∧
      (VFIODevice.Load emptyVFIODevice
        ⟨"dev0", ⟨"dev0", "/g3", false⟩, 1, "vfio",
          [⟨"bad", .VFIODeviceErrorType, "", "", false, "", ""⟩,
            ⟨"good", .VFIOPCIDeviceNormalType, "0000:01:00.0",
              "/sys/bus/pci/devices/0000:01:00.0", false, "", ""⟩]⟩).VfioDevs = [] := by
  refine ⟨by decide, by decide⟩

/-- C6 (amended): `Load` raises no caller-visible error on a list with an
unrecognized type tag; the records preceding the first unrecognized tag
are all reconstructed, while the unrecognized record and every record
after it are silently dropped. -/
theorem C6_load_unrecognized_drops_tail (device : VFIODevice) (ds : DeviceState)
    (pre post : List VFIODev) (bad : VFIODev)
    (hsplit : ds.VFIODevs = pre ++ bad :: post)
    (hrec : ∀ d ∈ pre, d.Typ ≠ .VFIODeviceErrorType)
    (hbad : bad.Typ = .VFIODeviceErrorType) :
    (VFIODevice.Load device ds).VfioDevs = device.VfioDevs ++ loadVFIODevs pre ∧
      (loadVFIODevs pre).length = pre.length := by
  constructor
  · simp [VFIODevice.Load, hsplit, loadVFIODevs_append_stop pre bad post hrec hbad]
  · exact loadVFIODevs_length pre hrec

/-- C6 witness: the amended behavior at a concrete state — one
recognized record before the unrecognized one, one after: the first
record survives, the rest is dropped. -/
theorem C6_load_unrecognized_drops_tail_witness :
    (VFIODevice.Load emptyVFIODevice
        ⟨"dev0", ⟨"dev0", "/g3", false⟩, 1, "vfio",
          [⟨"keep", .VFIOPCIDeviceNormalType, "0000:01:00.0",
              "/sys/bus/pci/devices/0000:01:00.0", false, "", ""⟩,
            ⟨"bad", .VFIODeviceErrorType, "", "", false, "", ""⟩,
            ⟨"lost", .VFIOPCIDeviceNormalType, "0000:01:00.1",
              "/sys/bus/pci/devices/0000:01:00.1", false, "", ""⟩]⟩).VfioDevs =
        emptyVFIODevice.VfioDevs ++ loadVFIODevs
          [⟨"keep", .VFIOPCIDeviceNormalType, "0000:01:00.0",
            "/sys/bus/pci/devices/0000:01:00.0", false, "", ""⟩] ∧
      (loadVFIODevs
        [⟨"keep", .VFIOPCIDeviceNormalType, "0000:01:00.0",
          "/sys/bus/pci/devices/0000:01:00.0", false, "", ""⟩]).length =
        ([⟨"keep", .VFIOPCIDeviceNormalType, "0000:01:00.0",
          "/sys/bus/pci/devices/0000:01:00.0", false, "", ""⟩] : List VFIODev).length :=
  C6_load_unrecognized_drops_tail emptyVFIODevice
    ⟨"dev0", ⟨"dev0", "/g3", false⟩, 1, "vfio",
      [⟨"keep", .VFIOPCIDeviceNormalType, "0000:01:00.0",
          "/sys/bus/pci/devices/0000:01:00.0", false, "", ""⟩,
        ⟨"bad", .VFIODeviceErrorType, "", "", false, "", ""⟩,
        ⟨"lost", .VFIOPCIDeviceNormalType, "0000:01:00.1",
          "/sys/bus/pci/devices/0000:01:00.1", false, "", ""⟩]⟩
    [⟨"keep", .VFIOPCIDeviceNormalType, "0000:01:00.0",
        "/sys/bus/pci/devices/0000:01:00.0", false, "", ""⟩]
    [⟨"lost", .VFIOPCIDeviceNormalType, "0000:01:00.1",
        "/sys/bus/pci/devices/0000:01:00.1", false, "", ""⟩]
    ⟨"bad", .VFIODeviceErrorType, "", "", false, "", ""⟩
    rfl (by decide) rfl

/-- C8: during Attach each resolved PCIe member gets a bus index equal to
the cardinality of its port's occupied-BDF set before insertion, its
guest bus label is the port's prefix concatenated with that index, and
its BDF is inserted into the port's set; concretely, an Attach resolving
three members on "root-port" followed by one on "switch-port" (prefixes
"rp" / "sp", starting from an empty registry) labels them rp0, rp1, rp2,
sp0 in call order, with all three root-port BDFs occupying that port's
set and the fourth BDF occupying the other port's set. -/
theorem C8_pcie_slot_allocation :
    (∀ (pm : String → String) (reg : PCIeRegistry) (vfio : VFIODev)
        (rest : List VFIODev),
      vfio.IsPCIe = true →
      ∃ rest' reg'',
        reservePCIe pm (vfio :: rest) reg =
          ({ vfio with Bus := pm vfio.Port ++ Nat.repr (reg vfio.Port).length } :: rest',
            reg'') ∧
          vfio.BDF ∈ reg'' vfio.Port) ∧
    ((VFIODevice.Attach
        ⟨.ok [⟨"vfio-A", .VFIOPCIDeviceNormalType, "0000:01:00.0",
            "/sys/bus/pci/devices/0000:01:00.0", true, "root-port", ""⟩,
          ⟨"vfio-B", .VFIOPCIDeviceNormalType, "0000:01:00.1",
            "/sys/bus/pci/devices/0000:01:00.1", true, "root-port", ""⟩,
          ⟨"vfio-C", .VFIOPCIDeviceNormalType, "0000:01:00.2",
            "/sys/bus/pci/devices/0000:01:00.2", true, "root-port", ""⟩,
          ⟨"vfio-D", .VFIOPCIDeviceNormalType, "0000:02:00.0",
            "/sys/bus/pci/devices/0000:02:00.0", true, "switch-port", ""⟩],
          none, none, fun p => if p = "root-port" then "rp" else "sp"⟩
        { Generic := { ID := "dev0", DevInfo := ⟨"dev0", "/g3", false⟩, AttachCount := 0 }
          VfioDevs := [] } (fun _ => [])).device.VfioDevs.map VFIODev.Bus =
        ["rp0", "rp1", "rp2", "sp0"] ∧
      "0000:01:00.0" ∈ (VFIODevice.Attach
        ⟨.ok [⟨"vfio-A", .VFIOPCIDeviceNormalType, "0000:01:00.0",
            "/sys/bus/pci/devices/0000:01:00.0", true, "root-port", ""⟩,
          ⟨"vfio-B", .VFIOPCIDeviceNormalType, "0000:01:00.1",
            "/sys/bus/pci/devices/0000:01:00.1", true, "root-port", ""⟩,
          ⟨"vfio-C", .VFIOPCIDeviceNormalType, "0000:01:00.2",
            "/sys/bus/pci/devices/0000:01:00.2", true, "root-port", ""⟩,
          ⟨"vfio-D", .VFIOPCIDeviceNormalType, "0000:02:00.0",
            "/sys/bus/pci/devices/0000:02:00.0", true, "switch-port", ""⟩],
          none, none, fun p => if p = "root-port" then "rp" else "sp"⟩
        { Generic := { ID := "dev0", DevInfo := ⟨"dev0", "/g3", false⟩, AttachCount := 0 }
          VfioDevs := [] } (fun _ => [])).reg "root-port" ∧
      "0000:01:00.1" ∈ (VFIODevice.Attach
        ⟨.ok [⟨"vfio-A", .VFIOPCIDeviceNormalType, "0000:01:00.0",
            "/sys/bus/pci/devices/0000:01:00.0", true, "root-port", ""⟩,
          ⟨"vfio-B", .VFIOPCIDeviceNormalType, "0000:01:00.1",
            "/sys/bus/pci/devices/0000:01:00.1", true, "root-port", ""⟩,
          ⟨"vfio-C", .VFIOPCIDeviceNormalType, "0000:01:00.2",
            "/sys/bus/pci/devices/0000:01:00.2", true, "root-port", ""⟩,
          ⟨"vfio-D", .VFIOPCIDeviceNormalType, "0000:02:00.0",
            "/sys/bus/pci/devices/0000:02:00.0", true, "switch-port", ""⟩],
          none, none, fun p => if p = "root-port" then "rp" else "sp"⟩
        { Generic := { ID := "dev0", DevInfo := ⟨"dev0", "/g3", false⟩, AttachCount := 0 }
          VfioDevs := [] } (fun _ => [])).reg "root-port" ∧
      "0000:01:00.2" ∈ (VFIODevice.Attach
        ⟨.ok [⟨"vfio-A", .VFIOPCIDeviceNormalType, "0000:01:00.0",
            "/sys/bus/pci/devices/0000:01:00.0", true, "root-port", ""⟩,
          ⟨"vfio-B", .VFIOPCIDeviceNormalType, "0000:01:00.1",
            "/sys/bus/pci/devices/0000:01:00.1", true, "root-port", ""⟩,
          ⟨"vfio-C", .VFIOPCIDeviceNormalType, "0000:01:00.2",
            "/sys/bus/pci/devices/0000:01:00.2", true, "root-port", ""⟩,
          ⟨"vfio-D", .VFIOPCIDeviceNormalType, "0000:02:00.0",
            "/sys/bus/pci/devices/0000:02:00.0", true, "switch-port", ""⟩],
          none, none, fun p => if p = "root-port" then "rp" else "sp"⟩
        { Generic := { ID := "dev0", DevInfo := ⟨"dev0", "/g3", false⟩, AttachCount := 0 }
          VfioDevs := [] } (fun _ => [])).reg "root-port" ∧
      "0000:02:00.0" ∈ (VFIODevice.Attach
        ⟨.ok [⟨"vfio-A", .VFIOPCIDeviceNormalType, "0000:01:00.0",
            "/sys/bus/pci/devices/0000:01:00.0", true, "root-port", ""⟩,
          ⟨"vfio-B", .VFIOPCIDeviceNormalType, "0000:01:00.1",
            "/sys/bus/pci/devices/0000:01:00.1", true, "root-port", ""⟩,
          ⟨"vfio-C", .VFIOPCIDeviceNormalType, "0000:01:00.2",
            "/sys/bus/pci/devices/0000:01:00.2", true, "root-port", ""⟩,
          ⟨"vfio-D", .VFIOPCIDeviceNormalType, "0000:02:00.0",
            "/sys/bus/pci/devices/0000:02:00.0", true, "switch-port", ""⟩],
          none, none, fun p => if p = "root-port" then "rp" else "sp"⟩
        { Generic := { ID := "dev0", DevInfo := ⟨"dev0", "/g3", false⟩, AttachCount := 0 }
          VfioDevs := [] } (fun _ => [])).reg "switch-port") := by
  constructor
  · intro pm reg vfio rest hP
    refine ⟨(reservePCIe pm rest (registryInsert reg vfio.Port vfio.BDF)).1,
      (reservePCIe pm rest (registryInsert reg vfio.Port vfio.BDF)).2, ?_, ?_⟩
    · simp [reservePCIe, hP]
    · exact reservePCIe_mem_mono pm rest _ _ _
        (registryInsert_self_mem reg vfio.Port vfio.BDF)
  · refine ⟨by decide, by decide, by decide, by decide, by decide⟩

/-- C8 witness: the single-step rule applied at a concrete PCIe member
and a concrete registry already holding one BDF on its port. -/
theorem C8_pcie_slot_allocation_witness :
    ∃ rest' reg'',
      reservePCIe (fun _ => "rp")
          [⟨"vfio-B", .VFIOPCIDeviceNormalType, "0000:01:00.1",
            "/sys/bus/pci/devices/0000:01:00.1", true, "root-port", ""⟩]
          (fun p => if p = "root-port" then ["0000:01:00.0"] else []) =
        ({ (⟨"vfio-B", .VFIOPCIDeviceNormalType, "0000:01:00.1",
            "/sys/bus/pci/devices/0000:01:00.1", true, "root-port", ""⟩ : VFIODev) with
            Bus := (fun (_ : String) => "rp") "root-port" ++ Nat.repr
              ((fun p => if p = "root-port" then ["0000:01:00.0"] else []) "root-port").length }
          :: rest', reg'') ∧
        "0000:01:00.1" ∈ reg'' "root-port" :=
  C8_pcie_slot_allocation.1 (fun _ => "rp")
    (fun p => if p = "root-port" then ["0000:01:00.0"] else [])
    ⟨"vfio-B", .VFIOPCIDeviceNormalType, "0000:01:00.1",
      "/sys/bus/pci/devices/0000:01:00.1", true, "root-port", ""⟩
    [] rfl

end Vfio
